import Mathlib

/-
Verification of the ConfigMap synchronization controller
(src/configmap-syncer-controller/cm_syncer.py) against its specification.

The embedding is shallow: the sync pass and the watch loop body are
translated into total Lean functions over an explicit store state, and the
observable actions of the controller (patch attempts, warnings, backoff
sleeps, stream opens) are recorded in an explicit trace.
-/

namespace CMSyncer

/-- A target ConfigMap reference, one entry of TARGET_CONFIGMAPS
(name and namespace), cm_syncer.py lines 12-15. -/
structure TargetRef where
  name : String
  ns : String
deriving DecidableEq, Repr

/-- A ConfigMap data field: plain string key/value pairs
(cm_syncer.py line 23: "The data in ConfigMaps are plain string
key/value pairs"). -/
abbrev CMData := List (String × String)

/-- Outcome of one patch attempt on one target, as classified by the
except-branches of sync_configmap_data (lines 49-58): success, a 404
not-found, or any other request failure. -/
inductive PatchOutcome where
  | success
  | notFound
  | requestFailed
deriving DecidableEq, Repr

/-- The remote store visible to the controller: the data field of each
existing target object, plus an environment flag marking targets whose
patch attempt fails with a non-404 error. -/
structure Store where
  objects : TargetRef → Option CMData
  failing : TargetRef → Bool

/-- One observable action of the controller: a patch attempt on a target
with its outcome, a warning log, a backoff sleep of a given duration, or a
stream-open call presented with a resume cursor. -/
inductive TraceEntry where
  | patchAttempt (t : TargetRef) (outcome : PatchOutcome)
  | warn
  | sleep (delay : Nat)
  | streamOpen (cursor : Option String)
deriving DecidableEq, Repr

/-- Modelled from the spec: the store's patch capability (section 6) is an
external collaborator absent from src/. Per the spec it "performs a full
replace of that object's data field only" and "returns a distinguishable
not-found condition versus other failures". A target marked failing
reports a request failure and is left unchanged; an absent target reports
not-found; otherwise the target's data field is fully replaced. -/
def applyPatch (st : Store) (t : TargetRef) (newData : CMData) :
    Store × PatchOutcome :=
  if st.failing t then (st, .requestFailed)
  else
    match st.objects t with
    | none => (st, .notFound)
    | some _ =>
        ({ st with objects := fun u => if u = t then some newData else st.objects u },
         .success)

/-- Python truthiness of the source data as used on line 25
(`if not source_data`): true when the data is None (absent) or an empty
mapping. -/
def dataFalsy : Option CMData → Bool
  | none => true
  | some d => d.isEmpty

/-- One step of the per-target loop of sync_configmap_data (lines 33-58):
attempt the patch, record the attempt and its outcome, and continue with
the resulting store. Every outcome, 404 included, falls through to the
next target. -/
def syncStep (newData : CMData) (acc : Store × List TraceEntry)
    (target : TargetRef) : Store × List TraceEntry :=
  let r := applyPatch acc.1 target newData
  (r.1, acc.2 ++ [TraceEntry.patchAttempt target r.2])

/-- sync_configmap_data (cm_syncer.py lines 20-58): if the source data is
empty or absent, warn once and return without touching any target
(lines 25-27); otherwise patch every target in order with a body that
replaces the data field (lines 33-58), never letting one target's failure
stop the rest. Returns the resulting store and the trace of the pass. -/
def sync_configmap_data (source_data : Option CMData) (st : Store)
    (targets : List TargetRef) : Store × List TraceEntry :=
  if dataFalsy source_data then (st, [TraceEntry.warn])
  else targets.foldl (syncStep (source_data.getD [])) (st, [])

/-- One change notification from the watch stream: the event type string,
the object's data field, and the object's resource version
(cm_syncer.py lines 98-104). -/
structure WatchEvent where
  type : String
  data : Option CMData
  resourceVersion : String
deriving DecidableEq, Repr

/-- The mutable state of watch_source_configmap: the resume cursor
(resource_version, line 80), the backoff delay (backoff_time, line 81),
the store, and the accumulated trace of observable actions. -/
structure LoopState where
  resource_version : Option String
  backoff_time : Nat
  store : Store
  trace : List TraceEntry

/-- The body of the event loop of watch_source_configmap
(cm_syncer.py lines 98-118): record the event's resource version for the
next stream (line 104, unconditionally); on ADDED or MODIFIED run the sync
pass and reset the backoff to 1 (lines 107-110); on DELETED only warn,
never touching any target (lines 112-114); ignore anything else with a
debug log (lines 117-118). -/
def processEvent (targets : List TargetRef) (s : LoopState)
    (e : WatchEvent) : LoopState :=
  let s' := { s with resource_version := some e.resourceVersion }
  if e.type = "ADDED" ∨ e.type = "MODIFIED" then
    let r := sync_configmap_data e.data s'.store targets
    { s' with store := r.1, trace := s'.trace ++ r.2, backoff_time := 1 }
  else if e.type = "DELETED" then
    { s' with trace := s'.trace ++ [TraceEntry.warn] }
  else
    s'

/-- One connected stream: the for-loop of lines 91-118 consuming the
finite sequence of events the session delivers before it terminates. -/
def runConnection (targets : List TargetRef) (s : LoopState)
    (events : List WatchEvent) : LoopState :=
  events.foldl (processEvent targets) s

/-- One iteration of the while-True loop (cm_syncer.py lines 83-131):
open the stream with the current cursor (lines 91-97), process the
session's events, then sleep the current backoff and double it capped at
60 (lines 128-131). Stream-level exceptions (lines 120-126) only end the
session, so they are modelled as the termination of the event list. -/
def loopIteration (targets : List TargetRef) (s : LoopState)
    (events : List WatchEvent) : LoopState :=
  let s0 := { s with trace := s.trace ++ [TraceEntry.streamOpen s.resource_version] }
  let s1 := runConnection targets s0 events
  { s1 with
    trace := s1.trace ++ [TraceEntry.sleep s1.backoff_time],
    backoff_time := min (s1.backoff_time * 2) 60 }

/-- The watch loop run over a finite prefix of sessions, each session
being the list of events one stream connection delivers before
terminating. -/
def run (targets : List TargetRef) (s : LoopState)
    (sessions : List (List WatchEvent)) : LoopState :=
  sessions.foldl (loopIteration targets) s

/-- State on entry to the while loop: cursor unset and backoff 1
(cm_syncer.py lines 80-81), no action taken yet. -/
def initialState (st : Store) : LoopState :=
  { resource_version := none, backoff_time := 1, store := st, trace := [] }

/-- watch_source_configmap (cm_syncer.py lines 60-131): if client
initialization fails the function returns before the loop (lines 75-78),
having taken no observable action; otherwise it enters the loop with
cursor unset and backoff 1 and runs it over the given sessions. -/
def watch_source_configmap (initOk : Bool) (targets : List TargetRef)
    (st : Store) (sessions : List (List WatchEvent)) : LoopState :=
  if initOk then run targets (initialState st) sessions
  else initialState st

/-- The targets of the patch attempts recorded in a trace, in order. -/
def attemptsOf (tr : List TraceEntry) : List TargetRef :=
  tr.filterMap fun entry =>
    match entry with
    | .patchAttempt t _ => some t
    | _ => none

/-- The backoff sleeps recorded in a trace, in order. -/
def sleepsOf (tr : List TraceEntry) : List Nat :=
  tr.filterMap fun entry =>
    match entry with
    | .sleep d => some d
    | _ => none

/-- The cursors presented to the stream-open calls recorded in a trace,
in order. -/
def opensOf (tr : List TraceEntry) : List (Option String) :=
  tr.filterMap fun entry =>
    match entry with
    | .streamOpen c => some c
    | _ => none

/-- The cursor of the most recently observed event of a session, or the
incoming cursor when the session delivered no event. -/
def lastEventCursor (init : Option String) (es : List WatchEvent) :
    Option String :=
  es.foldl (fun _ e => some e.resourceVersion) init

/-- Specification-side description of the cursors the loop should present
to its successive stream-open calls: the first open uses the initial
cursor, and each later open uses the cursor of the most recently observed
event of the connections so far. -/
def cursorsPresented (init : Option String) :
    List (List WatchEvent) → List (Option String)
  | [] => []
  | es :: rest => init :: cursorsPresented (lastEventCursor init es) rest

/-- A store with no objects and no failing targets, for concrete runs. -/
def emptyStore : Store :=
  { objects := fun _ => none, failing := fun _ => false }

/-- The first configured target, absent from the demonstration store. -/
def tgt1 : TargetRef := { name := "config-1", ns := "dev" }

/-- The second configured target, present in the demonstration store. -/
def tgt2 : TargetRef := { name := "config-2", ns := "stage" }

/-- A concrete store for witnesses: tgt1 absent, tgt2 present with data
a=0, b=2 (the example of spec section 8), nothing failing. -/
def demoStore : Store :=
  { objects := fun u => if u = tgt2 then some [("a", "0"), ("b", "2")] else none,
    failing := fun _ => false }

/-- The pure evolution of the store under the per-target loop, with the
trace stripped away. -/
def storeFold (d : CMData) (st : Store) (targets : List TargetRef) : Store :=
  targets.foldl (fun s t => (applyPatch s t d).1) st

lemma attemptsOf_append (a b : List TraceEntry) :
    attemptsOf (a ++ b) = attemptsOf a ++ attemptsOf b :=
  List.filterMap_append a b _

lemma opensOf_append (a b : List TraceEntry) :
    opensOf (a ++ b) = opensOf a ++ opensOf b :=
  List.filterMap_append a b _

lemma sleepsOf_append (a b : List TraceEntry) :
    sleepsOf (a ++ b) = sleepsOf a ++ sleepsOf b :=
  List.filterMap_append a b _

lemma applyPatch_failing (st : Store) (t : TargetRef) (d : CMData) :
    ((applyPatch st t d).1).failing = st.failing := by
  unfold applyPatch
  split
  · rfl
  · split <;> rfl

lemma applyPatch_objects_ne (st : Store) (t u : TargetRef) (d : CMData)
    (h : u ≠ t) : ((applyPatch st t d).1).objects u = st.objects u := by
  unfold applyPatch
  split
  · rfl
  · split
    · rfl
    · simp [h]

lemma applyPatch_objects_self (st : Store) (t : TargetRef) (d : CMData)
    (hf : st.failing t = false) (he : (st.objects t).isSome) :
    ((applyPatch st t d).1).objects t = some d := by
  unfold applyPatch
  rw [if_neg (by simp [hf])]
  cases hobj : st.objects t with
  | none => rw [hobj] at he; simp at he
  | some v => simp [hobj]

lemma syncFold_fst (d : CMData) :
    ∀ (targets : List TargetRef) (st : Store) (acc : List TraceEntry),
      (targets.foldl (syncStep d) (st, acc)).1 = storeFold d st targets := by
  intro targets
  induction targets with
  | nil => intro st acc; rfl
  | cons u rest ih =>
      intro st acc
      simp only [List.foldl_cons, syncStep, storeFold]
      exact ih ((applyPatch st u d).1) _

lemma syncFold_snd (d : CMData) :
    ∀ (targets : List TargetRef) (st : Store) (acc : List TraceEntry),
      (targets.foldl (syncStep d) (st, acc)).2
        = acc ++ (targets.foldl (syncStep d) (st, [])).2 := by
  intro targets
  induction targets with
  | nil => intro st acc; simp
  | cons u rest ih =>
      intro st acc
      simp only [List.foldl_cons, syncStep]
      rw [ih ((applyPatch st u d).1) (acc ++ _), ih ((applyPatch st u d).1) ([] ++ _)]
      simp

lemma syncFold_attempts (d : CMData) :
    ∀ (targets : List TargetRef) (st : Store),
      attemptsOf ((targets.foldl (syncStep d) (st, [])).2) = targets := by
  intro targets
  induction targets with
  | nil => intro st; rfl
  | cons u rest ih =>
      intro st
      simp only [List.foldl_cons, syncStep]
      rw [syncFold_snd, List.nil_append, attemptsOf_append, ih]
      rfl

lemma syncFold_no_open (d : CMData) :
    ∀ (targets : List TargetRef) (st : Store),
      opensOf ((targets.foldl (syncStep d) (st, [])).2) = [] := by
  intro targets
  induction targets with
  | nil => intro st; rfl
  | cons u rest ih =>
      intro st
      simp only [List.foldl_cons, syncStep]
      rw [syncFold_snd, List.nil_append, opensOf_append, ih]
      rfl

lemma storeFold_failing (d : CMData) :
    ∀ (targets : List TargetRef) (st : Store),
      (storeFold d st targets).failing = st.failing := by
  intro targets
  induction targets with
  | nil => intro st; rfl
  | cons u rest ih =>
      intro st
      simp only [storeFold, List.foldl_cons]
      rw [show (rest.foldl (fun s t => (applyPatch s t d).1) ((applyPatch st u d).1))
            = storeFold d ((applyPatch st u d).1) rest from rfl]
      rw [ih, applyPatch_failing]

lemma storeFold_objects_not_mem (d : CMData) (t : TargetRef) :
    ∀ (targets : List TargetRef) (st : Store), t ∉ targets →
      (storeFold d st targets).objects t = st.objects t := by
  intro targets
  induction targets with
  | nil => intro st _; rfl
  | cons u rest ih =>
      intro st ht
      simp only [storeFold, List.foldl_cons]
      rw [show (rest.foldl (fun s t => (applyPatch s t d).1) ((applyPatch st u d).1))
            = storeFold d ((applyPatch st u d).1) rest from rfl]
      rw [ih _ (fun hmem => ht (List.mem_cons_of_mem u hmem))]
      exact applyPatch_objects_ne st u t d (fun h => ht (h ▸ List.mem_cons_self u rest))

lemma storeFold_objects_mem (d : CMData) (t : TargetRef) :
    ∀ (targets : List TargetRef) (st : Store), t ∈ targets →
      st.failing t = false → (st.objects t).isSome →
      (storeFold d st targets).objects t = some d := by
  intro targets
  induction targets with
  | nil => intro st ht; exact absurd ht (List.not_mem_nil t)
  | cons u rest ih =>
      intro st ht hf he
      simp only [storeFold, List.foldl_cons]
      rw [show (rest.foldl (fun s t => (applyPatch s t d).1) ((applyPatch st u d).1))
            = storeFold d ((applyPatch st u d).1) rest from rfl]
      by_cases hur : t ∈ rest
      · apply ih _ hur
        · rw [applyPatch_failing]; exact hf
        · by_cases hut : t = u
          · subst hut
            rw [applyPatch_objects_self st t d hf he]
            rfl
          · rw [applyPatch_objects_ne st u t d hut]; exact he
      · have htu : t = u := by
          rcases List.mem_cons.mp ht with h | h
          · exact h
          · exact absurd h hur
        subst htu
        rw [storeFold_objects_not_mem d t rest _ hur]
        exact applyPatch_objects_self st t d hf he

/-- Core fact shared by several claims: when the source data is falsy the
sync pass returns the store untouched with exactly one warning. -/
lemma sync_falsy (sd : Option CMData) (st : Store) (targets : List TargetRef)
    (h : dataFalsy sd = true) :
    sync_configmap_data sd st targets = (st, [TraceEntry.warn]) := by
  unfold sync_configmap_data
  rw [if_pos h]

/-- Core fact shared by several claims: on a non-falsy snapshot, every
configured target that exists and is not failing ends the pass with its
data field equal to the snapshot exactly. -/
lemma sync_objects_mem (sd : Option CMData) (st : Store)
    (targets : List TargetRef) (t : TargetRef) (hne : dataFalsy sd = false)
    (ht : t ∈ targets) (hf : st.failing t = false)
    (he : (st.objects t).isSome) :
    (sync_configmap_data sd st targets).1.objects t = some (sd.getD []) := by
  unfold sync_configmap_data
  rw [if_neg (by simp [hne])]
  rw [syncFold_fst]
  exact storeFold_objects_mem _ t targets st ht hf he

/-- Core fact shared by several claims: on a non-falsy snapshot the pass
attempts a patch on every configured target in order, whatever the
individual outcomes. -/
lemma sync_attempts (sd : Option CMData) (st : Store)
    (targets : List TargetRef) (hne : dataFalsy sd = false) :
    attemptsOf (sync_configmap_data sd st targets).2 = targets := by
  unfold sync_configmap_data
  rw [if_neg (by simp [hne])]
  exact syncFold_attempts _ targets st

lemma sync_opens (sd : Option CMData) (st : Store) (targets : List TargetRef) :
    opensOf (sync_configmap_data sd st targets).2 = [] := by
  unfold sync_configmap_data
  split
  · rfl
  · exact syncFold_no_open _ targets st

lemma processEvent_rv (targets : List TargetRef) (s : LoopState)
    (e : WatchEvent) :
    (processEvent targets s e).resource_version = some e.resourceVersion := by
  unfold processEvent
  split
  · rfl
  · split <;> rfl

lemma processEvent_opens (targets : List TargetRef) (s : LoopState)
    (e : WatchEvent) :
    opensOf (processEvent targets s e).trace = opensOf s.trace := by
  unfold processEvent
  split
  · simp only [opensOf_append, sync_opens]
    simp
  · split
    · simp [opensOf_append]
      rfl
    · rfl

lemma runConnection_rv (targets : List TargetRef) :
    ∀ (events : List WatchEvent) (s : LoopState),
      (runConnection targets s events).resource_version
        = lastEventCursor s.resource_version events := by
  intro events
  induction events with
  | nil => intro s; rfl
  | cons e rest ih =>
      intro s
      simp only [runConnection, List.foldl_cons, lastEventCursor]
      rw [show (rest.foldl (processEvent targets) (processEvent targets s e))
            = runConnection targets (processEvent targets s e) rest from rfl]
      rw [ih]
      simp [lastEventCursor, processEvent_rv]

lemma runConnection_opens (targets : List TargetRef) :
    ∀ (events : List WatchEvent) (s : LoopState),
      opensOf (runConnection targets s events).trace = opensOf s.trace := by
  intro events
  induction events with
  | nil => intro s; rfl
  | cons e rest ih =>
      intro s
      simp only [runConnection, List.foldl_cons]
      rw [show (rest.foldl (processEvent targets) (processEvent targets s e))
            = runConnection targets (processEvent targets s e) rest from rfl]
      rw [ih, processEvent_opens]

lemma loopIteration_rv (targets : List TargetRef) (s : LoopState)
    (events : List WatchEvent) :
    (loopIteration targets s events).resource_version
      = lastEventCursor s.resource_version events := by
  unfold loopIteration
  rw [show ({ s with trace := s.trace ++ [TraceEntry.streamOpen s.resource_version] }
        : LoopState).resource_version = s.resource_version from rfl] at *
  exact runConnection_rv targets events _

lemma loopIteration_opens (targets : List TargetRef) (s : LoopState)
    (events : List WatchEvent) :
    opensOf (loopIteration targets s events).trace
      = opensOf s.trace ++ [s.resource_version] := by
  unfold loopIteration
  simp only [opensOf_append, runConnection_opens]
  simp [opensOf]

lemma run_opens (targets : List TargetRef) :
    ∀ (sessions : List (List WatchEvent)) (s : LoopState),
      opensOf (run targets s sessions).trace
        = opensOf s.trace ++ cursorsPresented s.resource_version sessions := by
  intro sessions
  induction sessions with
  | nil => intro s; simp [run, cursorsPresented]
  | cons es rest ih =>
      intro s
      simp only [run, List.foldl_cons]
      rw [show (rest.foldl (loopIteration targets) (loopIteration targets s es))
            = run targets (loopIteration targets s es) rest from rfl]
      rw [ih, loopIteration_opens, loopIteration_rv]
      simp [cursorsPresented]

/-- The sequence of backoff delays slept over n consecutive stream
terminations, starting from delay b: sleep the current delay, then double
it capped at 60 (cm_syncer.py lines 128-131). -/
def delays : Nat → Nat → List Nat
  | _, 0 => []
  | b, n + 1 => b :: delays (min (b * 2) 60) n

lemma run_empty_sleeps (targets : List TargetRef) :
    ∀ (n : Nat) (s : LoopState),
      sleepsOf (run targets s (List.replicate n [])).trace
        = sleepsOf s.trace ++ delays s.backoff_time n := by
  intro n
  induction n with
  | zero => intro s; simp [run, delays]
  | succ n ih =>
      intro s
      rw [List.replicate_succ]
      simp only [run, List.foldl_cons]
      rw [show ((List.replicate n []).foldl (loopIteration targets)
              (loopIteration targets s []))
            = run targets (loopIteration targets s []) (List.replicate n []) from rfl]
      rw [ih]
      unfold loopIteration runConnection
      simp only [List.foldl_nil]
      simp [sleepsOf_append, sleepsOf, delays]

lemma min_double (k : Nat) :
    min (min (2 ^ k) 60 * 2) 60 = min (2 ^ (k + 1)) 60 := by
  rcases le_total (2 ^ k) 60 with h | h
  · rw [Nat.min_eq_left h, pow_succ]
  · have h2 : 60 ≤ 2 ^ (k + 1) :=
      le_trans h (Nat.pow_le_pow_right (by norm_num) (Nat.le_succ k))
    rw [Nat.min_eq_right h, Nat.min_eq_right h2]
    norm_num

lemma delays_pow :
    ∀ (n k : Nat), delays (min (2 ^ k) 60) n
      = (List.range n).map (fun j => min (2 ^ (k + j)) 60) := by
  intro n
  induction n with
  | zero => intro k; rfl
  | succ n ih =>
      intro k
      show min (2 ^ k) 60 :: delays (min (min (2 ^ k) 60 * 2) 60) n
        = (List.range (n + 1)).map (fun j => min (2 ^ (k + j)) 60)
      rw [min_double, ih (k + 1), List.range_succ_eq_map, List.map_cons,
        List.map_map]
      congr 1
      apply List.map_congr_left
      intro j hj
      simp only [Function.comp_apply, Nat.succ_eq_add_one]
      have harith : k + 1 + j = k + (j + 1) := by omega
      rw [harith]

lemma cursorsPresented_length :
    ∀ (sessions : List (List WatchEvent)) (init : Option String),
      (cursorsPresented init sessions).length = sessions.length := by
  intro sessions
  induction sessions with
  | nil => intro init; rfl
  | cons es rest ih =>
      intro init
      simp [cursorsPresented, ih]

/-- C1: for every Added/Modified event carrying a non-empty snapshot S,
after the sync pass every target's data field equals S exactly — the
patch fully replaces the data field, so every key present on the target
but absent from S is dropped. Stated for each configured target the pass
can actually patch (it exists in the store and its patch attempt does not
fail). -/
theorem sync_full_replace (S : CMData) (hS : S ≠ []) (st : Store)
    (targets : List TargetRef) (t : TargetRef) (ht : t ∈ targets)
    (hf : st.failing t = false) (he : (st.objects t).isSome) :
    (sync_configmap_data (some S) st targets).1.objects t = some S := by
  have hne : dataFalsy (some S) = false := by
    cases S with
    | nil => exact absurd rfl hS
    | cons a as => rfl
  exact sync_objects_mem (some S) st targets t hne ht hf he

/-- Witness for C1 at the spec's own example: target data a=0, b=2 and
snapshot a=1 leave the target with exactly a=1 (the key b is dropped). -/
theorem sync_full_replace_witness :
    ([("a", "1")] : CMData) ≠ [] ∧ tgt2 ∈ [tgt2] ∧
    demoStore.failing tgt2 = false ∧ (demoStore.objects tgt2).isSome ∧
    (sync_configmap_data (some [("a", "1")]) demoStore [tgt2]).1.objects tgt2
      = some [("a", "1")] :=
  ⟨by decide, by decide, by decide, by decide,
   sync_full_replace [("a", "1")] (by decide) demoStore [tgt2] tgt2
     (by decide) (by decide) (by decide)⟩

/-- C2: when the snapshot is empty or absent, the sync pass performs zero
patch attempts on any target, emits exactly one warning, and leaves every
target unchanged. -/
theorem sync_empty_skip (sd : Option CMData) (st : Store)
    (targets : List TargetRef) (h : dataFalsy sd = true) :
    (sync_configmap_data sd st targets).1 = st ∧
    (sync_configmap_data sd st targets).2 = [TraceEntry.warn] ∧
    attemptsOf (sync_configmap_data sd st targets).2 = [] := by
  rw [sync_falsy sd st targets h]
  exact ⟨rfl, rfl, rfl⟩

/-- Witness for C2: an absent snapshot against the demonstration store
and both configured targets. -/
theorem sync_empty_skip_witness :
    dataFalsy none = true ∧
    ((sync_configmap_data none demoStore [tgt1, tgt2]).1 = demoStore ∧
     (sync_configmap_data none demoStore [tgt1, tgt2]).2 = [TraceEntry.warn] ∧
     attemptsOf (sync_configmap_data none demoStore [tgt1, tgt2]).2 = []) :=
  ⟨rfl, sync_empty_skip none demoStore [tgt1, tgt2] rfl⟩

/-- C3: a Deleted event never triggers any mutation of any target: the
store is unchanged, the only action taken is the warning log, and in
particular no patch attempt is recorded. -/
theorem deleted_event_no_patch (targets : List TargetRef) (s : LoopState)
    (e : WatchEvent) (h : e.type = "DELETED") :
    (processEvent targets s e).store = s.store ∧
    (processEvent targets s e).trace = s.trace ++ [TraceEntry.warn] ∧
    attemptsOf (processEvent targets s e).trace = attemptsOf s.trace := by
  have hno : ¬(e.type = "ADDED" ∨ e.type = "MODIFIED") := by
    rw [h]; decide
  simp only [processEvent]
  rw [if_neg hno, if_pos h]
  refine ⟨rfl, rfl, ?_⟩
  show attemptsOf (s.trace ++ [TraceEntry.warn]) = attemptsOf s.trace
  rw [attemptsOf_append, show attemptsOf [TraceEntry.warn] = [] from rfl,
    List.append_nil]

/-- Witness for C3: a Deleted event processed against the demonstration
store with both configured targets. -/
theorem deleted_event_no_patch_witness :
    ("DELETED" : String) = "DELETED" ∧
    ((processEvent [tgt1, tgt2] (initialState demoStore)
        { type := "DELETED", data := none, resourceVersion := "4" }).store
       = (initialState demoStore).store ∧
     (processEvent [tgt1, tgt2] (initialState demoStore)
        { type := "DELETED", data := none, resourceVersion := "4" }).trace
       = (initialState demoStore).trace ++ [TraceEntry.warn] ∧
     attemptsOf (processEvent [tgt1, tgt2] (initialState demoStore)
        { type := "DELETED", data := none, resourceVersion := "4" }).trace
       = attemptsOf (initialState demoStore).trace) :=
  ⟨rfl, deleted_event_no_patch [tgt1, tgt2] (initialState demoStore)
    { type := "DELETED", data := none, resourceVersion := "4" } rfl⟩

/-- C4: within one sync pass over the ordered target list, a failure on
any one target never stops the remaining targets: every configured target
is attempted in order, and every target that exists and is not failing
ends with its data replaced, regardless of what happened to the targets
before it. The pass is a total function, so no exception escapes it. -/
theorem sync_failure_isolation (sd : Option CMData) (st : Store)
    (targets : List TargetRef) (h : dataFalsy sd = false) :
    attemptsOf (sync_configmap_data sd st targets).2 = targets ∧
    ∀ t ∈ targets, st.failing t = false → (st.objects t).isSome →
      (sync_configmap_data sd st targets).1.objects t = some (sd.getD []) :=
  ⟨sync_attempts sd st targets h,
   fun t ht hf he => sync_objects_mem sd st targets t h ht hf he⟩

/-- Witness for C4 at the spec's scenario: first target absent (its
attempt returns not-found), second present — both are attempted and the
second is still patched to the snapshot. -/
theorem sync_failure_isolation_witness :
    dataFalsy (some [("a", "1")]) = false ∧
    (sync_configmap_data (some [("a", "1")]) demoStore [tgt1, tgt2]).2
      = [TraceEntry.patchAttempt tgt1 PatchOutcome.notFound,
         TraceEntry.patchAttempt tgt2 PatchOutcome.success] ∧
    (attemptsOf (sync_configmap_data (some [("a", "1")]) demoStore
        [tgt1, tgt2]).2 = [tgt1, tgt2] ∧
     ∀ t ∈ [tgt1, tgt2], demoStore.failing t = false →
       (demoStore.objects t).isSome →
       (sync_configmap_data (some [("a", "1")]) demoStore
          [tgt1, tgt2]).1.objects t = some ((some [("a", "1")]).getD [])) :=
  ⟨by decide, by decide,
   sync_failure_isolation (some [("a", "1")]) demoStore [tgt1, tgt2] (by decide)⟩

/-- C5: under n consecutive stream terminations with no intervening
event, the delays slept before each reconnect are 1, 2, 4, 8, 16, 32,
60, 60, …: the k-th delay is min (2 pow k) 60, exactly doubling then
capped at 60. -/
theorem backoff_delay_sequence (targets : List TargetRef) (st : Store)
    (n : Nat) :
    sleepsOf (run targets (initialState st) (List.replicate n [])).trace
      = (List.range n).map (fun k => min (2 ^ k) 60) := by
  rw [run_empty_sleeps]
  show sleepsOf [] ++ delays 1 n = _
  rw [show sleepsOf ([] : List TraceEntry) = [] from rfl, List.nil_append]
  rw [show (1 : Nat) = min (2 ^ 0) 60 from by norm_num]
  rw [delays_pow n 0]
  simp

/-- C6 counterexample: after two failed sessions the backoff has grown to
4; a Deleted event is then observed and processed (the cursor advances to
its resource version), yet the backoff delay is not 1 — the code resets
the delay only in the ADDED/MODIFIED branch (cm_syncer.py line 110), so
the claim that any successfully processed event of any kind resets it is
false. -/
theorem deleted_keeps_backoff_cex :
    (processEvent [] (run [] (initialState emptyStore) [[], []])
        { type := "DELETED", data := none, resourceVersion := "7" }).resource_version
      = some "7" ∧
    ¬((processEvent [] (run [] (initialState emptyStore) [[], []])
        { type := "DELETED", data := none, resourceVersion := "7" }).backoff_time
      = 1) := by
  constructor
  · rfl
  · decide

/-- C6 amended: the backoff delay resets to 1 after a processed Added or
Modified event, regardless of how large it had grown; Deleted events and
all other event kinds leave the delay unchanged. -/
theorem backoff_reset_only_on_sync_events (targets : List TargetRef)
    (s : LoopState) (e : WatchEvent) :
    ((e.type = "ADDED" ∨ e.type = "MODIFIED") →
      (processEvent targets s e).backoff_time = 1) ∧
    (e.type ≠ "ADDED" → e.type ≠ "MODIFIED" →
      (processEvent targets s e).backoff_time = s.backoff_time) := by
  constructor
  · intro h
    simp only [processEvent]
    rw [if_pos h]
  · intro h1 h2
    simp only [processEvent]
    rw [if_neg (not_or.mpr ⟨h1, h2⟩)]
    split <;> rfl

/-- Witness for the amended C6: a processed ADDED event resets the
backoff to 1. -/
theorem backoff_reset_witness :
    (processEvent [] (initialState emptyStore)
      { type := "ADDED", data := none, resourceVersion := "1" }).backoff_time
      = 1 :=
  (backoff_reset_only_on_sync_events [] (initialState emptyStore)
    { type := "ADDED", data := none, resourceVersion := "1" }).1 (Or.inl rfl)

/-- C7: the watch cursor advances on every observed event of any kind
(the loop records the event's resource version before classifying it),
and the cursor presented to each stream-open call is the cursor of the
most recently observed event so far — unset at process start, carried
across reconnects. -/
theorem cursor_advance_and_resume :
    (∀ (targets : List TargetRef) (s : LoopState) (e : WatchEvent),
      (processEvent targets s e).resource_version = some e.resourceVersion) ∧
    (∀ (targets : List TargetRef) (st : Store)
        (sessions : List (List WatchEvent)),
      opensOf (watch_source_configmap true targets st sessions).trace
        = cursorsPresented none sessions) := by
  constructor
  · exact processEvent_rv
  · intro targets st sessions
    show opensOf (run targets (initialState st) sessions).trace
      = cursorsPresented none sessions
    rw [run_opens]
    rfl

/-- C8: ADDED and MODIFIED events run the sync pass unconditionally — the
resulting state is exactly the sync pass applied to the event's snapshot,
with no diffing against any previous snapshot — and every event kind
other than ADDED, MODIFIED and DELETED produces no action beyond a debug
log: only the cursor changes. -/
theorem event_classification (targets : List TargetRef) (s : LoopState)
    (e : WatchEvent) :
    ((e.type = "ADDED" ∨ e.type = "MODIFIED") →
      processEvent targets s e =
        { resource_version := some e.resourceVersion,
          backoff_time := 1,
          store := (sync_configmap_data e.data s.store targets).1,
          trace := s.trace ++ (sync_configmap_data e.data s.store targets).2 }) ∧
    (e.type ≠ "ADDED" → e.type ≠ "MODIFIED" → e.type ≠ "DELETED" →
      processEvent targets s e
        = { s with resource_version := some e.resourceVersion }) := by
  constructor
  · intro h
    simp only [processEvent]
    rw [if_pos h]
  · intro h1 h2 h3
    simp only [processEvent]
    rw [if_neg (not_or.mpr ⟨h1, h2⟩), if_neg h3]

/-- Witness for C8: a BOOKMARK event only advances the cursor. -/
theorem event_classification_witness :
    ("BOOKMARK" : String) ≠ "ADDED" ∧ ("BOOKMARK" : String) ≠ "MODIFIED" ∧
    ("BOOKMARK" : String) ≠ "DELETED" ∧
    processEvent [] (initialState emptyStore)
        { type := "BOOKMARK", data := none, resourceVersion := "2" }
      = { initialState emptyStore with resource_version := some "2" } :=
  ⟨by decide, by decide, by decide,
   (event_classification [] (initialState emptyStore)
      { type := "BOOKMARK", data := none, resourceVersion := "2" }).2
     (by decide) (by decide) (by decide)⟩

/-- C9: when client initialization fails, the function returns before the
loop with no observable action — no stream open, no patch; once the loop
is entered, no session termination stops it: every one of the n observed
sessions is followed by a reconnect, so exactly n stream opens occur,
whatever error ended each session. -/
theorem bootstrap_and_loop_containment (targets : List TargetRef)
    (st : Store) (sessions : List (List WatchEvent)) :
    (watch_source_configmap false targets st sessions).trace = [] ∧
    (opensOf (watch_source_configmap true targets st sessions).trace).length
      = sessions.length := by
  constructor
  · rfl
  · show (opensOf (run targets (initialState st) sessions).trace).length
      = sessions.length
    rw [run_opens]
    show (cursorsPresented none sessions).length = sessions.length
    exact cursorsPresented_length sessions none

/-- C10: an ADDED or MODIFIED event whose snapshot is empty or absent
skips the sync pass (store untouched, exactly one warning, no patch) and
still resets the backoff delay to 1, exactly as an event whose pass
patched targets would. -/
theorem empty_snapshot_still_resets_backoff (targets : List TargetRef)
    (s : LoopState) (e : WatchEvent)
    (htype : e.type = "ADDED" ∨ e.type = "MODIFIED")
    (hdata : dataFalsy e.data = true) :
    (processEvent targets s e).backoff_time = 1 ∧
    (processEvent targets s e).store = s.store ∧
    (processEvent targets s e).trace = s.trace ++ [TraceEntry.warn] := by
  simp only [processEvent]
  rw [if_pos htype]
  rw [sync_falsy e.data _ targets hdata]
  exact ⟨rfl, rfl, rfl⟩

/-- Witness for C10: a MODIFIED event carrying an empty snapshot. -/
theorem empty_snapshot_witness :
    (("MODIFIED" : String) = "ADDED" ∨ ("MODIFIED" : String) = "MODIFIED") ∧
    dataFalsy (some []) = true ∧
    ((processEvent [tgt1] (initialState demoStore)
        { type := "MODIFIED", data := some [], resourceVersion := "3" }).backoff_time
       = 1 ∧
     (processEvent [tgt1] (initialState demoStore)
        { type := "MODIFIED", data := some [], resourceVersion := "3" }).store
       = (initialState demoStore).store ∧
     (processEvent [tgt1] (initialState demoStore)
        { type := "MODIFIED", data := some [], resourceVersion := "3" }).trace
       = (initialState demoStore).trace ++ [TraceEntry.warn]) :=
  ⟨Or.inr rfl, rfl,
   empty_snapshot_still_resets_backoff [tgt1] (initialState demoStore)
     { type := "MODIFIED", data := some [], resourceVersion := "3" }
     (Or.inr rfl) rfl⟩

end CMSyncer
